import Mathlib

/-!
Shallow embedding of `topcat_scatter_utils.py`: density calculation and
sorting (`calculate_density`), colormap truncation (`truncate_colormap`),
and the composed renderer (`plot_density_scatter`).

Python float values are modelled by `PFloat` (a rational or one of the three
non-finite values), since the module only inspects floats through
`np.isfinite` and the `<=` comparison.  The external collaborators (the
Gaussian KDE primitive, the colormap registry and the scatter primitive) are
modelled as function parameters with explicit failure channels.
-/

namespace TopcatScatter

/-- A Python float as used by this module: a finite rational, NaN, +inf or -inf. -/
inductive PFloat where
  | finite (q : ℚ)
  | nan
  | posinf
  | neginf
deriving DecidableEq, Repr

/-- `np.isfinite` on a single value. -/
def PFloat.isfinite : PFloat → Bool
  | .finite _ => true
  | _ => false

/-- Python `<=` on floats: every comparison with NaN is false. -/
def PFloat.le : PFloat → PFloat → Bool
  | .nan, _ => false
  | _, .nan => false
  | .neginf, _ => true
  | _, .neginf => false
  | _, .posinf => true
  | .posinf, _ => false
  | .finite a, .finite b => a ≤ b

/-- The non-fatal warning emitted by `warnings.warn` in `calculate_density`,
carrying the count of removed points. -/
inductive Warning where
  | removedNonFinite (count : ℕ)
deriving DecidableEq, Repr

/-- The `ValueError`s raised by the module's own validation code, one
constructor per distinct message. -/
inductive ValidationError where
  | lengthMismatch (nx ny : ℕ)
  | tooFewPoints (n : ℕ)
  | nonPositiveBandwidth (b : PFloat)
  | rangeReversed (minval maxval : ℚ)
  | rangeOutOfBounds (minval maxval : ℚ)
deriving DecidableEq, Repr

/-- An error raised by an outside collaborator (the KDE primitive or the
colormap registry); it propagates unchanged through this module. -/
structure ExtError where
  message : String
deriving DecidableEq, Repr

/-- What `calculate_density` can raise: its own validation errors, or a
failure of the KDE primitive propagating through. -/
inductive CalcError where
  | validation (e : ValidationError)
  | kdeFailure (e : ExtError)
deriving DecidableEq, Repr

/-- The successful result of `calculate_density`. -/
structure DensityResult where
  x_sorted : List PFloat
  y_sorted : List PFloat
  density : List ℚ
deriving DecidableEq, Repr

/-- The `scipy.stats.gaussian_kde` primitive, black-box: from the point list
and the optional bandwidth it produces one density value per point, or fails
(e.g. on degenerate data). -/
abbrev Kde : Type :=
  List (PFloat × PFloat) → Option PFloat → Except ExtError (List ℚ)

/-- `np.argsort z` (line 70): the indices of `z` arranged so that reading `z`
at them is ascending.  Tie order among equal values is not part of the
contract; a stable sort of the index list realises one admissible order. -/
def argsort (z : List ℚ) : List ℕ :=
  List.insertionSort (fun i j => z.getD i 0 ≤ z.getD j 0) (List.range z.length)

/-- Lines 60-65: the finite mask `np.isfinite(x) & np.isfinite(y)` followed by
`x[mask]`, `y[mask]`, rendered on the paired sequences. -/
def cleanPairs (x y : List PFloat) : List (PFloat × PFloat) :=
  (x.zip y).filter (fun p => p.1.isfinite && p.2.isfinite)

/-- Lines 59-73 of `calculate_density`: non-finite filtering with its warning,
the KDE evaluation and the density sort, run after validation has passed.
The first component of the result collects the warnings emitted. -/
def densityCore (kde : Kde) (x y : List PFloat) (bandwidth : Option PFloat) :
    List Warning × Except CalcError DensityResult :=
  let kept := cleanPairs x y
  let n_bad := (x.zip y).countP (fun p => !(p.1.isfinite && p.2.isfinite))
  let ws : List Warning := if n_bad = 0 then [] else [.removedNonFinite n_bad]
  let xc := kept.map Prod.fst
  let yc := kept.map Prod.snd
  match kde kept bandwidth with
  | .error e => (ws, .error (.kdeFailure e))
  | .ok z =>
      let idx := argsort z
      (ws, .ok { x_sorted := idx.map (fun i => xc.getD i (.finite 0)),
                 y_sorted := idx.map (fun i => yc.getD i (.finite 0)),
                 density := idx.map (fun i => z.getD i 0) })

/-- `calculate_density(x, y, bandwidth)` (lines 12-73): validation in source
order (length match, minimum count, bandwidth sign), then `densityCore`. -/
def calculate_density (kde : Kde) (x y : List PFloat)
    (bandwidth : Option PFloat) :
    List Warning × Except CalcError DensityResult :=
  if x.length ≠ y.length then
    ([], .error (.validation (.lengthMismatch x.length y.length)))
  else if x.length < 2 then
    ([], .error (.validation (.tooFewPoints x.length)))
  else
    match bandwidth with
    | some b =>
        if b.le (.finite 0) then
          ([], .error (.validation (.nonPositiveBandwidth b)))
        else densityCore kde x y (some b)
    | none => densityCore kde x y none

/-- A bandwidth argument admitted by the claims: absent or a positive finite
value. -/
def validBandwidth : Option PFloat → Prop
  | none => True
  | some b => ∃ q : ℚ, b = .finite q ∧ 0 < q

/-- An RGBA color with rational channels. -/
structure Color where
  r : ℚ
  g : ℚ
  b : ℚ
  a : ℚ
deriving DecidableEq, Repr

/-- A matplotlib colormap object: its name and its sampling map from
positions in [0,1] to colors. -/
structure Colormap where
  name : String
  color : ℚ → Color

/-- The result of `LinearSegmentedColormap.from_list`: a discrete gradient
determined by its name and the ordered list of colors it is built from. -/
structure TruncatedColormap where
  name : String
  colors : List Color
deriving DecidableEq, Repr

/-- The colormap registry `plt.get_cmap`, black-box: resolves a name to a
colormap object or fails on an unknown name. -/
abbrev Registry : Type :=
  String → Except ExtError Colormap

/-- The `cmap` argument of `truncate_colormap`: a name string or a colormap
object. -/
inductive CmapArg where
  | byName (s : String)
  | byObject (c : Colormap)

/-- What `truncate_colormap` can raise: its own validation errors, or a
failure of the registry while resolving a name. -/
inductive TruncError where
  | validation (e : ValidationError)
  | registryFailure (e : ExtError)
deriving DecidableEq, Repr

/-- `np.linspace a b num` with the default `endpoint=True`: `num` evenly
spaced samples from `a` to `b` inclusive (`[a]` when `num = 1`, `[]` when
`num = 0`). -/
def linspace (a b : ℚ) (num : ℕ) : List ℚ :=
  (List.range num).map
    (fun (i : ℕ) => if num ≤ 1 then a else a + (i : ℚ) * (b - a) / ((num : ℚ) - 1))

/-- Round `q` scaled by 100 to the nearest integer, ties to even, as
Python's fixed-point float formatting does; computed on numerator and
denominator with integer floor division. -/
def roundHalfEven100 (q : ℚ) : ℤ :=
  let t : ℤ := q.num * 100
  let d : ℤ := (q.den : ℤ)
  let f : ℤ := t.fdiv d
  let r : ℤ := t - f * d
  if 2 * r < d then f
  else if 2 * r > d then f + 1
  else if Even f then f else f + 1

/-- Python `'{:.2f}'.format(q)`: fixed-point rendering with two decimal
places. -/
def fmt2 (q : ℚ) : String :=
  let r := roundHalfEven100 q
  let m := r.natAbs
  (if r < 0 then "-" else "") ++ toString (m / 100) ++ "." ++
    (if m % 100 < 10 then "0" else "") ++ toString (m % 100)

/-- `truncate_colormap(cmap, minval, maxval, n)` (lines 75-122): resolve a
string argument through the registry (lines 107-109), validate the range
(lines 112-116), then sample the gradient at `np.linspace(minval, maxval, n)`
and build the renamed discrete gradient (lines 118-122). -/
def truncate_colormap (registry : Registry) (cmap : CmapArg)
    (minval maxval : ℚ) (n : ℕ) : Except TruncError TruncatedColormap :=
  match (match cmap with
         | .byName s => registry s
         | .byObject c => .ok c : Except ExtError Colormap) with
  | .error e => .error (.registryFailure e)
  | .ok cm =>
      if minval ≥ maxval then
        .error (.validation (.rangeReversed minval maxval))
      else if ¬ (0 ≤ minval ∧ minval ≤ 1 ∧ 0 ≤ maxval ∧ maxval ≤ 1) then
        .error (.validation (.rangeOutOfBounds minval maxval))
      else
        .ok { name := "truncated(" ++ cm.name ++ "," ++ fmt2 minval ++ ","
                        ++ fmt2 maxval ++ ")",
              colors := (linspace minval maxval n).map cm.color }

/-- A keyword-argument dictionary, keys with their values in insertion
order. -/
abbrev KwArgs : Type := List (String × String)

/-- Python `dict.setdefault k v`: insert `k ↦ v` at the end when `k` is
absent. -/
def setdefault (kw : KwArgs) (k v : String) : KwArgs :=
  if (List.lookup k kw).isSome then kw else kw ++ [(k, v)]

/-- One invocation of the scatter primitive `ax.scatter`, with everything it
receives. -/
structure ScatterCall where
  x : List PFloat
  y : List PFloat
  c : List ℚ
  cmap : TruncatedColormap
  kwargs : List (String × String)
deriving DecidableEq, Repr

/-- A drawing surface: the scatter layers added to it so far. -/
structure Axes where
  layers : List ScatterCall
deriving DecidableEq, Repr

/-- The full outcome of `plot_density_scatter`: warnings, the result (the
scatter handle or the first error, each sub-call's error propagating
unchanged), and the final states of the caller's surface and of the implicit
current surface. -/
structure PlotOutcome where
  warnings : List Warning
  result : Except (CalcError ⊕ TruncError) ScatterCall
  ax_out : Option Axes
  gca_out : Axes

/-- `plot_density_scatter(...)` (lines 124-175): run `calculate_density`,
then `truncate_colormap`, resolve the surface (`plt.gca()` when `ax` is
None), default `edgecolor` to `'None'`, and add the scatter layer.  `gca` is
the state of the implicit current surface at call time. -/
def plot_density_scatter (kde : Kde) (registry : Registry)
    (x y : List PFloat) (bandwidth : Option PFloat) (cmap : CmapArg)
    (minval maxval : ℚ) (n : ℕ) (ax : Option Axes) (gca : Axes)
    (scatter_kwargs : KwArgs) : PlotOutcome :=
  match calculate_density kde x y bandwidth with
  | (ws, .error e) =>
      { warnings := ws, result := .error (.inl e), ax_out := ax, gca_out := gca }
  | (ws, .ok r) =>
      match truncate_colormap registry cmap minval maxval n with
      | .error e =>
          { warnings := ws, result := .error (.inr e), ax_out := ax, gca_out := gca }
      | .ok tc =>
          let kw := setdefault scatter_kwargs "edgecolor" "None"
          let call : ScatterCall :=
            { x := r.x_sorted, y := r.y_sorted, c := r.density,
              cmap := tc, kwargs := kw }
          match ax with
          | some a =>
              { warnings := ws, result := .ok call,
                ax_out := some { layers := a.layers ++ [call] }, gca_out := gca }
          | none =>
              { warnings := ws, result := .ok call,
                ax_out := none, gca_out := { layers := gca.layers ++ [call] } }

/-! Concrete instances of the black-box collaborators and concrete inputs,
used to evaluate the development on closed examples. -/

/-- A KDE stub assigning density 0 to every point. -/
def kdeZero : Kde := fun pts _ => .ok (pts.map (fun _ => (0 : ℚ)))

/-- A KDE stub assigning increasing densities 0, 1, 2, ... in input order. -/
def kdeIota : Kde := fun pts _ => .ok ((List.range pts.length).map (fun i => (i : ℚ)))

/-- A KDE stub that always fails, as `gaussian_kde` does on degenerate data. -/
def kdeFail : Kde := fun _ _ => .error { message := "singular data" }

/-- A registry failing on every name, as `plt.get_cmap` does on unknown
names. -/
def registryFail : Registry := fun _ => .error { message := "unknown colormap" }

/-- A concrete grayscale colormap object. -/
def cmGray : Colormap :=
  { name := "gray", color := fun q => { r := q, g := q, b := q, a := 1 } }

/-- A registry resolving every name to `cmGray`. -/
def registryGray : Registry := fun _ => .ok cmGray

/-- The input `x = [1, 2, NaN, 4]` of the spec's worked example. -/
def xEx : List PFloat := [.finite 1, .finite 2, .nan, .finite 4]

/-- The input `y = [1, 2, 3, Inf]` of the spec's worked example. -/
def yEx : List PFloat := [.finite 1, .finite 2, .finite 3, .posinf]

/-! Helper lemmas about `argsort` and index gathering. -/

theorem argsort_perm (z : List ℚ) : List.Perm (argsort z) (List.range z.length) :=
  List.perm_insertionSort _ _

theorem argsort_pairwise (z : List ℚ) :
    (argsort z).Pairwise (fun i j => z.getD i 0 ≤ z.getD j 0) := by
  haveI : IsTotal ℕ (fun i j => z.getD i 0 ≤ z.getD j 0) :=
    ⟨fun a b => le_total _ _⟩
  haveI : IsTrans ℕ (fun i j => z.getD i 0 ≤ z.getD j 0) :=
    ⟨fun a b c hab hbc => le_trans hab hbc⟩
  exact List.sorted_insertionSort _ _

theorem map_getD_range {α : Type} (l : List α) (d : α) :
    (List.range l.length).map (fun i => l.getD i d) = l := by
  apply List.ext_getElem (by simp)
  intro i h1 h2
  have hi : i < l.length := by simpa using h2
  simp [List.getD_eq_getElem _ _ hi, List.getElem?_eq_getElem hi]

theorem range_map_getD_eq {α : Type} (l : List α) (d : α) (n : ℕ)
    (h : n = l.length) :
    (List.range n).map (fun i => l.getD i d) = l := by
  subst h; exact map_getD_range l d

/-! Helper lemmas about `densityCore` and `calculate_density`. -/

theorem densityCore_not_validation (kde : Kde) (x y : List PFloat)
    (bw : Option PFloat) (e : ValidationError) :
    (densityCore kde x y bw).2 ≠ .error (.validation e) := by
  cases hk : kde (cleanPairs x y) bw <;> simp [densityCore, hk]

theorem densityCore_snd_of_kde_ok (kde : Kde) (x y : List PFloat)
    (bw : Option PFloat) (z : List ℚ) (hz : kde (cleanPairs x y) bw = .ok z) :
    (densityCore kde x y bw).2 =
      .ok { x_sorted := (argsort z).map
              (fun i => ((cleanPairs x y).map Prod.fst).getD i (.finite 0)),
            y_sorted := (argsort z).map
              (fun i => ((cleanPairs x y).map Prod.snd).getD i (.finite 0)),
            density := (argsort z).map (fun i => z.getD i 0) } := by
  simp [densityCore, hz]

theorem densityCore_snd_of_kde_error (kde : Kde) (x y : List PFloat)
    (bw : Option PFloat) (e : ExtError)
    (he : kde (cleanPairs x y) bw = .error e) :
    (densityCore kde x y bw).2 = .error (.kdeFailure e) := by
  simp [densityCore, he]

theorem densityCore_warnings (kde : Kde) (x y : List PFloat)
    (bw : Option PFloat) :
    (densityCore kde x y bw).1 =
      (if (x.zip y).countP (fun p => !(p.1.isfinite && p.2.isfinite)) = 0 then []
       else [Warning.removedNonFinite
              ((x.zip y).countP (fun p => !(p.1.isfinite && p.2.isfinite)))]) := by
  cases hk : kde (cleanPairs x y) bw <;> simp [densityCore, hk]

theorem calculate_density_eq_core (kde : Kde) (x y : List PFloat)
    (bw : Option PFloat) (hlen : x.length = y.length) (h2 : 2 ≤ x.length)
    (hbw : validBandwidth bw) :
    calculate_density kde x y bw = densityCore kde x y bw := by
  have hne : ¬ x.length ≠ y.length := by simpa using hlen
  have h2' : ¬ x.length < 2 := Nat.not_lt.mpr h2
  cases bw with
  | none =>
      simp [calculate_density, hne, h2']
  | some b =>
      obtain ⟨q, rfl, hq⟩ := hbw
      have hle : PFloat.le (.finite q) (.finite 0) = false := by
        simp [PFloat.le, not_le.mpr hq]
      simp [calculate_density, hne, h2', hle]

/-- A KDE stub assigning density 0 to every point via `List.replicate`,
extensionally but not definitionally the same as `kdeZero`. -/
def kdeRep : Kde := fun pts _ => .ok (List.replicate pts.length (0 : ℚ))

/-- A concrete two-point input, x coordinates. -/
def xW : List PFloat := [.finite 0, .finite 1]

/-- A concrete two-point input, y coordinates. -/
def yW : List PFloat := [.finite 2, .finite 3]

/-- C1: for every valid input (equal lengths ≥ 2, bandwidth absent or
positive) on which the KDE primitive yields one density per cleaned point,
`calculate_density` returns three sequences of equal length at most
`len(x)`, the density component is non-decreasing, and the returned triples
are a permutation of the cleaned pairs paired with their densities. -/
theorem c1_estimate_sorted_and_permutation (kde : Kde) (x y : List PFloat)
    (bw : Option PFloat) (z : List ℚ)
    (hlen : x.length = y.length) (h2 : 2 ≤ x.length) (hbw : validBandwidth bw)
    (hz : kde (cleanPairs x y) bw = .ok z)
    (hzlen : z.length = (cleanPairs x y).length) :
    ∃ r, (calculate_density kde x y bw).2 = .ok r ∧
      r.x_sorted.length = r.y_sorted.length ∧
      r.y_sorted.length = r.density.length ∧
      r.x_sorted.length ≤ x.length ∧
      List.Sorted (· ≤ ·) r.density ∧
      List.Perm ((r.x_sorted.zip r.y_sorted).zip r.density)
        ((cleanPairs x y).zip z) := by
  have hcd := calculate_density_eq_core kde x y bw hlen h2 hbw
  have hok := densityCore_snd_of_kde_ok kde x y bw z hz
  have hlenas : (argsort z).length = z.length := by
    simpa using (argsort_perm z).length_eq
  refine ⟨_, by rw [hcd]; exact hok, by simp, by simp, ?_, ?_, ?_⟩
  · have hkept : (cleanPairs x y).length ≤ x.length := by
      have h3 := List.length_filter_le
        (fun p => p.1.isfinite && p.2.isfinite) (x.zip y)
      simp only [cleanPairs]
      calc ((x.zip y).filter (fun p => p.1.isfinite && p.2.isfinite)).length
          ≤ (x.zip y).length := h3
        _ = x.length := by rw [List.length_zip, hlen, Nat.min_self]
    simp only [List.length_map, hlenas, hzlen]
    exact hkept
  · exact List.Pairwise.map _ (fun a b hab => hab) (argsort_pairwise z)
  · show List.Perm
      ((((argsort z).map
          (fun i => ((cleanPairs x y).map Prod.fst).getD i (.finite 0))).zip
        ((argsort z).map
          (fun i => ((cleanPairs x y).map Prod.snd).getD i (.finite 0)))).zip
        ((argsort z).map (fun i => z.getD i 0)))
      ((cleanPairs x y).zip z)
    have e2 : ((((argsort z).map
          (fun i => ((cleanPairs x y).map Prod.fst).getD i (.finite 0))).zip
        ((argsort z).map
          (fun i => ((cleanPairs x y).map Prod.snd).getD i (.finite 0)))).zip
        ((argsort z).map (fun i => z.getD i 0)))
        = (argsort z).map (fun i =>
            ((((cleanPairs x y).map Prod.fst).getD i (.finite 0),
              ((cleanPairs x y).map Prod.snd).getD i (.finite 0)),
             z.getD i 0)) := by
      apply List.ext_getElem
      · simp
      · intro i h1 h2
        simp [List.getElem_zip]
    rw [e2]
    refine ((argsort_perm z).map _).trans ?_
    have e3 : (List.range z.length).map (fun i =>
          ((((cleanPairs x y).map Prod.fst).getD i (.finite 0),
            ((cleanPairs x y).map Prod.snd).getD i (.finite 0)),
           z.getD i 0)) = (cleanPairs x y).zip z := by
      apply List.ext_getElem
      · simp [hzlen]
      · intro i h1 h2
        have hi : i < z.length := by simpa using h1
        have hik : i < (cleanPairs x y).length := hzlen ▸ hi
        have hif : i < ((cleanPairs x y).map Prod.fst).length := by
          simpa using hik
        have his : i < ((cleanPairs x y).map Prod.snd).length := by
          simpa using hik
        simp [List.getElem_zip, List.getD_eq_getElem _ _ hif,
              List.getD_eq_getElem _ _ his, List.getD_eq_getElem _ _ hi,
              List.getElem?_eq_getElem hik, List.getElem?_eq_getElem hi]
    rw [e3]

/-- Closed instance of C1 on a concrete two-point input with a concrete KDE
stub. -/
theorem c1_witness :
    kdeZero (cleanPairs xW yW) none = .ok [0, 0] ∧
    ∃ r, (calculate_density kdeZero xW yW none).2 = .ok r ∧
      r.x_sorted.length = r.y_sorted.length ∧
      r.y_sorted.length = r.density.length ∧
      r.x_sorted.length ≤ xW.length ∧
      List.Sorted (· ≤ ·) r.density ∧
      List.Perm ((r.x_sorted.zip r.y_sorted).zip r.density)
        ((cleanPairs xW yW).zip [0, 0]) :=
  ⟨rfl, c1_estimate_sorted_and_permutation kdeZero xW yW none [0, 0]
    rfl (by decide) trivial rfl (by decide)⟩

/-- C2: `calculate_density` raises a `ValidationError` exactly when the two
lengths differ, fewer than 2 points are supplied pre-filter, or a bandwidth
is supplied that compares `<= 0`; so equal-length input of length ≥ 2 with
`bandwidth=None` never raises one. -/
theorem c2_validation_error_iff (kde : Kde) (x y : List PFloat)
    (bw : Option PFloat) :
    (∃ e, (calculate_density kde x y bw).2 = .error (.validation e)) ↔
      (x.length ≠ y.length ∨ x.length < 2 ∨
        ∃ b, bw = some b ∧ PFloat.le b (.finite 0) = true) := by
  by_cases h1 : x.length ≠ y.length
  · exact iff_of_true
      ⟨.lengthMismatch x.length y.length, by simp [calculate_density, h1]⟩
      (Or.inl h1)
  · by_cases h2 : x.length < 2
    · exact iff_of_true
        ⟨.tooFewPoints x.length, by simp [calculate_density, h1, h2]⟩
        (Or.inr (Or.inl h2))
    · cases bw with
      | none =>
          apply iff_of_false
          · rintro ⟨e, he⟩
            rw [show calculate_density kde x y none = densityCore kde x y none
                  from by simp [calculate_density, h1, h2]] at he
            exact densityCore_not_validation kde x y none e he
          · rintro (h | h | ⟨b, hb, _⟩)
            · exact h1 h
            · exact h2 h
            · simp at hb
      | some b =>
          by_cases hle : PFloat.le b (.finite 0) = true
          · exact iff_of_true
              ⟨.nonPositiveBandwidth b,
               by simp [calculate_density, h1, h2, hle]⟩
              (Or.inr (Or.inr ⟨b, rfl, hle⟩))
          · have hle' : PFloat.le b (.finite 0) = false := by
              simpa using hle
            apply iff_of_false
            · rintro ⟨e, he⟩
              rw [show calculate_density kde x y (some b)
                    = densityCore kde x y (some b)
                  from by simp [calculate_density, h1, h2, hle']] at he
              exact densityCore_not_validation kde x y (some b) e he
            · rintro (h | h | ⟨b', hb, hb'⟩)
              · exact h1 h
              · exact h2 h
              · rw [Option.some_inj.mp hb] at hle
                exact hle hb'

/-- C3: on valid input, `calculate_density` drops exactly the non-finite
pairs, emits one warning carrying the dropped count exactly when some pair
was dropped, and proceeds with the cleaned data. -/
theorem c3_nonfinite_drop_and_warning (kde : Kde) (x y : List PFloat)
    (bw : Option PFloat) (hlen : x.length = y.length) (h2 : 2 ≤ x.length)
    (hbw : validBandwidth bw) :
    cleanPairs x y = (x.zip y).filter (fun p => p.1.isfinite && p.2.isfinite) ∧
    ((x.zip y).countP (fun p => !(p.1.isfinite && p.2.isfinite)) = 0 →
      (calculate_density kde x y bw).1 = []) ∧
    (∀ k, (x.zip y).countP (fun p => !(p.1.isfinite && p.2.isfinite)) = k →
      0 < k → (calculate_density kde x y bw).1 = [.removedNonFinite k]) ∧
    (∀ z, kde (cleanPairs x y) bw = .ok z →
      z.length = (cleanPairs x y).length →
      ∃ r, (calculate_density kde x y bw).2 = .ok r ∧
        r.x_sorted.length = (cleanPairs x y).length ∧
        r.y_sorted.length = (cleanPairs x y).length ∧
        List.Perm r.x_sorted ((cleanPairs x y).map Prod.fst) ∧
        List.Perm r.y_sorted ((cleanPairs x y).map Prod.snd)) := by
  have hcd := calculate_density_eq_core kde x y bw hlen h2 hbw
  have hw := densityCore_warnings kde x y bw
  refine ⟨rfl, ?_, ?_, ?_⟩
  · intro h0
    rw [hcd, hw, if_pos h0]
  · intro k hk hkpos
    rw [hcd, hw, hk, if_neg (Nat.pos_iff_ne_zero.mp hkpos)]
  · intro z hz hzlen
    have hok := densityCore_snd_of_kde_ok kde x y bw z hz
    have hlenas : (argsort z).length = z.length := by
      simpa using (argsort_perm z).length_eq
    refine ⟨_, by rw [hcd]; exact hok, ?_, ?_, ?_, ?_⟩
    · simp [hlenas, hzlen]
    · simp [hlenas, hzlen]
    · refine ((argsort_perm z).map _).trans ?_
      rw [range_map_getD_eq ((cleanPairs x y).map Prod.fst) (.finite 0)
            z.length (by simpa using hzlen)]
    · refine ((argsort_perm z).map _).trans ?_
      rw [range_map_getD_eq ((cleanPairs x y).map Prod.snd) (.finite 0)
            z.length (by simpa using hzlen)]

/-- Closed instance of C3 on the spec's worked example
`x = [1, 2, NaN, 4]`, `y = [1, 2, 3, Inf]`: exactly one warning reporting 2
removed points, and sequences of length 2. -/
theorem c3_witness :
    (xEx.zip yEx).countP (fun p => !(p.1.isfinite && p.2.isfinite)) = 2 ∧
    (cleanPairs xEx yEx).length = 2 ∧
    (calculate_density kdeZero xEx yEx none).1 = [.removedNonFinite 2] ∧
    ∃ r, (calculate_density kdeZero xEx yEx none).2 = .ok r ∧
      r.x_sorted.length = (cleanPairs xEx yEx).length ∧
      r.y_sorted.length = (cleanPairs xEx yEx).length ∧
      List.Perm r.x_sorted ((cleanPairs xEx yEx).map Prod.fst) ∧
      List.Perm r.y_sorted ((cleanPairs xEx yEx).map Prod.snd) :=
  ⟨by decide, by decide,
   (c3_nonfinite_drop_and_warning kdeZero xEx yEx none rfl (by decide)
      trivial).2.2.1 2 (by decide) (by decide),
   (c3_nonfinite_drop_and_warning kdeZero xEx yEx none rfl (by decide)
      trivial).2.2.2 [0, 0] rfl (by decide)⟩

/-- C9: `calculate_density` is deterministic; its output is a function of
the input, the bandwidth and the estimator's response to the cleaned input,
so two calls with the same data and an estimator answering the same way
produce identical results. -/
theorem c9_deterministic (kde₁ kde₂ : Kde) (x y : List PFloat)
    (bw : Option PFloat)
    (h : kde₁ (cleanPairs x y) bw = kde₂ (cleanPairs x y) bw) :
    calculate_density kde₁ x y bw = calculate_density kde₂ x y bw := by
  have hcore : densityCore kde₁ x y bw = densityCore kde₂ x y bw := by
    simp only [densityCore, h]
  cases bw with
  | none => simp [calculate_density, hcore]
  | some b => simp [calculate_density, hcore]

/-- Closed instance of C9 with two extensionally equal KDE stubs built from
different code. -/
theorem c9_witness :
    kdeZero (cleanPairs xW yW) none = kdeRep (cleanPairs xW yW) none ∧
    calculate_density kdeZero xW yW none = calculate_density kdeRep xW yW none :=
  ⟨rfl, c9_deterministic kdeZero kdeRep xW yW none rfl⟩

/-- C10: the minimum-count check looks only at the pre-filter length, so a
valid input whose cleaned set has fewer than 2 points raises no
`ValidationError`, and the short cleaned set is what reaches the KDE
primitive (whose answer alone decides the outcome). -/
theorem c10_no_validation_on_few_finite (kde : Kde) (x y : List PFloat)
    (bw : Option PFloat) (hlen : x.length = y.length) (h2 : 2 ≤ x.length)
    (hbw : validBandwidth bw) (hfew : (cleanPairs x y).length < 2) :
    (∀ e, (calculate_density kde x y bw).2 ≠ .error (.validation e)) ∧
    (∀ ee, kde (cleanPairs x y) bw = .error ee →
      (calculate_density kde x y bw).2 = .error (.kdeFailure ee)) ∧
    (∀ z, kde (cleanPairs x y) bw = .ok z →
      ∃ r, (calculate_density kde x y bw).2 = .ok r) := by
  have hcd := calculate_density_eq_core kde x y bw hlen h2 hbw
  refine ⟨?_, ?_, ?_⟩
  · intro e
    rw [hcd]
    exact densityCore_not_validation kde x y bw e
  · intro ee he
    rw [hcd]
    exact densityCore_snd_of_kde_error kde x y bw ee he
  · intro z hz
    rw [hcd]
    exact ⟨_, densityCore_snd_of_kde_ok kde x y bw z hz⟩

/-- Closed instance of C10 on a length-2 input with zero finite pairs and a
failing KDE stub: no validation error, the KDE failure propagates. -/
theorem c10_witness :
    (cleanPairs [PFloat.nan, PFloat.nan] [PFloat.finite 0, PFloat.finite 0]).length < 2 ∧
    (∀ e, (calculate_density kdeFail [PFloat.nan, PFloat.nan]
      [PFloat.finite 0, PFloat.finite 0] none).2 ≠ .error (.validation e)) ∧
    (calculate_density kdeFail [PFloat.nan, PFloat.nan]
      [PFloat.finite 0, PFloat.finite 0] none).2 =
        .error (.kdeFailure { message := "singular data" }) :=
  ⟨by decide,
   (c10_no_validation_on_few_finite kdeFail _ _ none rfl (by decide) trivial
      (by decide)).1,
   (c10_no_validation_on_few_finite kdeFail _ _ none rfl (by decide) trivial
      (by decide)).2.1 _ rfl⟩

/-! Helper lemmas about `truncate_colormap`. -/

theorem truncate_byObject_validation_iff (registry : Registry) (cm : Colormap)
    (minval maxval : ℚ) (n : ℕ) :
    (∃ e, truncate_colormap registry (.byObject cm) minval maxval n
        = .error (.validation e)) ↔
      (minval ≥ maxval ∨ ¬ (0 ≤ minval ∧ minval ≤ 1) ∨
        ¬ (0 ≤ maxval ∧ maxval ≤ 1)) := by
  simp only [truncate_colormap]
  split_ifs with ha hb
  · exact iff_of_true ⟨_, rfl⟩ (Or.inl ha)
  · apply iff_of_false
    · rintro ⟨e, he⟩
      simp at he
    · rintro (h | h | h)
      · exact ha h
      · exact h ⟨hb.1, hb.2.1⟩
      · exact h ⟨hb.2.2.1, hb.2.2.2⟩
  · exact iff_of_true ⟨_, rfl⟩ (by tauto)

theorem truncate_byName_of_resolved (registry : Registry) (s : String)
    (cm : Colormap) (minval maxval : ℚ) (n : ℕ)
    (hres : registry s = .ok cm) :
    truncate_colormap registry (.byName s) minval maxval n
      = truncate_colormap registry (.byObject cm) minval maxval n := by
  simp only [truncate_colormap, hres]

theorem truncate_byName_of_registry_error (registry : Registry) (s : String)
    (er : ExtError) (minval maxval : ℚ) (n : ℕ)
    (hres : registry s = .error er) :
    truncate_colormap registry (.byName s) minval maxval n
      = .error (.registryFailure er) := by
  simp only [truncate_colormap, hres]

theorem truncate_byObject_ok (registry : Registry) (cm : Colormap)
    (minval maxval : ℚ) (n : ℕ) (hlt : minval < maxval)
    (hb : 0 ≤ minval ∧ minval ≤ 1 ∧ 0 ≤ maxval ∧ maxval ≤ 1) :
    truncate_colormap registry (.byObject cm) minval maxval n
      = .ok { name := "truncated(" ++ cm.name ++ "," ++ fmt2 minval ++ ","
                ++ fmt2 maxval ++ ")",
              colors := (linspace minval maxval n).map cm.color } := by
  have ha : ¬ (minval ≥ maxval) := not_le.mpr hlt
  simp only [truncate_colormap]
  rw [if_neg ha, if_neg (not_not_intro hb)]

/-- C4: `truncate_colormap` raises a `ValidationError` exactly when
`minval ≥ maxval` or a bound falls outside [0, 1] — both for an object cmap
and for any name the registry resolves — and in particular the ranges
(0.5, 0.5), (-0.1, 0.9) and (0.1, 1.1) all fail with one. -/
theorem c4_truncate_validation_iff :
    (∀ (registry : Registry) (cm : Colormap) (minval maxval : ℚ) (n : ℕ),
      (∃ e, truncate_colormap registry (.byObject cm) minval maxval n
          = .error (.validation e)) ↔
        (minval ≥ maxval ∨ ¬ (0 ≤ minval ∧ minval ≤ 1) ∨
          ¬ (0 ≤ maxval ∧ maxval ≤ 1))) ∧
    (∀ (registry : Registry) (s : String) (cm : Colormap)
        (minval maxval : ℚ) (n : ℕ), registry s = .ok cm →
      ((∃ e, truncate_colormap registry (.byName s) minval maxval n
          = .error (.validation e)) ↔
        (minval ≥ maxval ∨ ¬ (0 ≤ minval ∧ minval ≤ 1) ∨
          ¬ (0 ≤ maxval ∧ maxval ≤ 1)))) ∧
    (∀ (registry : Registry) (cm : Colormap), ∃ e,
      truncate_colormap registry (.byObject cm) (1/2) (1/2) 256
        = .error (.validation e)) ∧
    (∀ (registry : Registry) (cm : Colormap), ∃ e,
      truncate_colormap registry (.byObject cm) (-(1/10)) (9/10) 256
        = .error (.validation e)) ∧
    (∀ (registry : Registry) (cm : Colormap), ∃ e,
      truncate_colormap registry (.byObject cm) (1/10) (11/10) 256
        = .error (.validation e)) := by
  refine ⟨fun registry cm minval maxval n =>
      truncate_byObject_validation_iff registry cm minval maxval n,
    fun registry s cm minval maxval n hres => ?_,
    fun registry cm =>
      (truncate_byObject_validation_iff registry cm _ _ 256).mpr
        (Or.inl le_rfl),
    fun registry cm =>
      (truncate_byObject_validation_iff registry cm _ _ 256).mpr
        (Or.inr (Or.inl (by norm_num))),
    fun registry cm =>
      (truncate_byObject_validation_iff registry cm _ _ 256).mpr
        (Or.inr (Or.inr (by norm_num)))⟩
  rw [truncate_byName_of_resolved registry s cm minval maxval n hres]
  exact truncate_byObject_validation_iff registry cm minval maxval n

/-- Closed instance of C4's name-resolved case at the degenerate range
(0, 0). -/
theorem c4_witness :
    registryGray "Reds" = .ok cmGray ∧
    ((∃ e, truncate_colormap registryGray (.byName "Reds") 0 0 256
        = .error (.validation e)) ↔
      ((0:ℚ) ≥ 0 ∨ ¬ ((0:ℚ) ≤ 0 ∧ (0:ℚ) ≤ 1) ∨
        ¬ ((0:ℚ) ≤ 0 ∧ (0:ℚ) ≤ 1))) :=
  ⟨rfl, c4_truncate_validation_iff.2.1 registryGray "Reds" cmGray 0 0 256 rfl⟩

/-- C5 fails as stated: at an invalid range (minval = maxval = 0) with a
name the registry cannot resolve, `truncate_colormap` surfaces the
registry's failure, not a `ValidationError` — the name is resolved through
the registry before any validation runs. -/
theorem c5_counterexample :
    ((0:ℚ) ≥ 0) ∧
    truncate_colormap registryFail (.byName "nope") 0 0 256
      = .error (.registryFailure { message := "unknown colormap" }) :=
  ⟨le_rfl, rfl⟩

/-- C5 amended: validation in `calculate_density` is eager — invalid input
produces its `ValidationError` without consulting the KDE primitive at all;
in `truncate_colormap` a string cmap is resolved through the registry before
range validation (a failing name surfaces as the registry's error even when
the range is invalid), but an invalid range still produces a
`ValidationError` before the gradient is sampled. -/
theorem c5_eager_validation_amended :
    (∀ (x y : List PFloat) (bw : Option PFloat),
      (x.length ≠ y.length ∨ x.length < 2 ∨
        (∃ b, bw = some b ∧ PFloat.le b (.finite 0) = true)) →
      ∃ e, ∀ kde : Kde, calculate_density kde x y bw
        = ([], .error (.validation e))) ∧
    (∀ (registry : Registry) (s : String) (minval maxval : ℚ) (n : ℕ)
        (er : ExtError), registry s = .error er →
      truncate_colormap registry (.byName s) minval maxval n
        = .error (.registryFailure er)) ∧
    (∀ (registry : Registry) (cm : Colormap) (minval maxval : ℚ) (n : ℕ),
      (minval ≥ maxval ∨ ¬ (0 ≤ minval ∧ minval ≤ 1) ∨
        ¬ (0 ≤ maxval ∧ maxval ≤ 1)) →
      ∃ e, truncate_colormap registry (.byObject cm) minval maxval n
        = .error (.validation e)) := by
  refine ⟨?_,
    fun registry s minval maxval n er hres =>
      truncate_byName_of_registry_error registry s er minval maxval n hres,
    fun registry cm minval maxval n h =>
      (truncate_byObject_validation_iff registry cm minval maxval n).mpr h⟩
  intro x y bw hbad
  by_cases h1 : x.length ≠ y.length
  · exact ⟨.lengthMismatch x.length y.length, fun kde => by
      simp [calculate_density, h1]⟩
  · by_cases h2 : x.length < 2
    · exact ⟨.tooFewPoints x.length, fun kde => by
        simp [calculate_density, h1, h2]⟩
    · rcases hbad with h | h | ⟨b, rfl, hle⟩
      · exact absurd h h1
      · exact absurd h h2
      · exact ⟨.nonPositiveBandwidth b, fun kde => by
          simp [calculate_density, h1, h2, hle]⟩

/-- Closed instance of the amended C5 on a length-mismatched input: the
validation error is produced identically for every KDE stub. -/
theorem c5_witness :
    (([PFloat.finite 0] : List PFloat).length ≠ ([] : List PFloat).length) ∧
    (∃ e, ∀ kde : Kde, calculate_density kde [PFloat.finite 0] [] none
      = ([], .error (.validation e))) :=
  ⟨by decide,
   c5_eager_validation_amended.1 [PFloat.finite 0] [] none
     (Or.inl (by decide))⟩

/-- C6: for a valid range and n ≥ 1, `truncate_colormap` builds the new
gradient from exactly n colors of the source gradient sampled at evenly
spaced positions spanning [minval, maxval] (position i at
minval + i·(maxval-minval)/(n-1) for n ≥ 2, all within the range, hitting
both endpoints), named `truncated(<name>,<minval>,<maxval>)` with the bounds
formatted to two decimal places. -/
theorem c6_truncate_sampling_and_name (registry : Registry) (cm : Colormap)
    (minval maxval : ℚ) (n : ℕ) (h0 : 0 ≤ minval) (hlt : minval < maxval)
    (h1 : maxval ≤ 1) (hn : 1 ≤ n) :
    ∃ tc, truncate_colormap registry (.byObject cm) minval maxval n = .ok tc ∧
      tc.name = "truncated(" ++ cm.name ++ "," ++ fmt2 minval ++ ","
                  ++ fmt2 maxval ++ ")" ∧
      tc.colors.length = n ∧
      (∀ i, i < n → tc.colors.getD i { r := 0, g := 0, b := 0, a := 0 }
          = cm.color (if n = 1 then minval
              else minval + i * (maxval - minval) / ((n : ℚ) - 1))) ∧
      (∀ p, p ∈ linspace minval maxval n → minval ≤ p ∧ p ≤ maxval) ∧
      (2 ≤ n →
        tc.colors.getD 0 { r := 0, g := 0, b := 0, a := 0 }
            = cm.color minval ∧
        tc.colors.getD (n - 1) { r := 0, g := 0, b := 0, a := 0 }
            = cm.color maxval) := by
  have heq := truncate_byObject_ok registry cm minval maxval n hlt
    ⟨h0, le_trans hlt.le h1, le_trans h0 hlt.le, h1⟩
  have hlenl : (linspace minval maxval n).length = n := by simp [linspace]
  have hpt : ∀ i, i < n →
      ((linspace minval maxval n).map cm.color).getD i
          { r := 0, g := 0, b := 0, a := 0 }
        = cm.color (if n = 1 then minval
            else minval + i * (maxval - minval) / ((n : ℚ) - 1)) := by
    intro i hi
    have hi' : i < ((linspace minval maxval n).map cm.color).length := by
      simp [hlenl, hi]
    rw [List.getD_eq_getElem _ _ hi', List.getElem_map]
    congr 1
    simp only [linspace, List.getElem_map, List.getElem_range]
    by_cases hone : n = 1
    · rw [if_pos (by omega), if_pos hone]
    · rw [if_neg (by omega), if_neg hone]
  refine ⟨_, heq, rfl, by simp [hlenl], hpt, ?_, ?_⟩
  · intro p hp
    simp only [linspace, List.mem_map, List.mem_range] at hp
    obtain ⟨i, hi, rfl⟩ := hp
    by_cases hsm : n ≤ 1
    · rw [if_pos hsm]
      exact ⟨le_refl _, hlt.le⟩
    · rw [if_neg hsm]
      have h2n : 2 ≤ n := by omega
      have hd : (0:ℚ) < (n : ℚ) - 1 := by
        have : (2:ℚ) ≤ (n:ℚ) := by exact_mod_cast h2n
        linarith
      have hδ : (0:ℚ) < maxval - minval := by linarith
      have hi' : (i:ℚ) ≤ (n:ℚ) - 1 := by
        have hi1 : i + 1 ≤ n := hi
        have : (i:ℚ) + 1 ≤ (n:ℚ) := by exact_mod_cast hi1
        linarith
      constructor
      · have : (0:ℚ) ≤ (i:ℚ) * (maxval - minval) / ((n:ℚ) - 1) := by
          positivity
        linarith
      · have hle : (i:ℚ) * (maxval - minval) / ((n:ℚ) - 1)
            ≤ maxval - minval := by
          rw [div_le_iff₀ hd]
          nlinarith
        linarith
  · intro h2n
    have hne1 : n ≠ 1 := by omega
    constructor
    · rw [hpt 0 (by omega), if_neg hne1]
      norm_num
    · rw [hpt (n - 1) (by omega), if_neg hne1]
      have hd : ((n:ℚ) - 1) ≠ 0 := by
        have : (2:ℚ) ≤ (n:ℚ) := by exact_mod_cast h2n
        linarith
      have hcast : (((n - 1 : ℕ)) : ℚ) = (n:ℚ) - 1 := by
        have := Nat.cast_sub hn (R := ℚ)
        simpa using this
      rw [hcast]
      congr 1
      field_simp

/-- Closed instance of C6 at the range [0, 1] with 256 colors on a concrete
colormap, with the concrete two-decimal renderings of the bounds. -/
theorem c6_witness :
    fmt2 0 = "0.00" ∧ fmt2 1 = "1.00" ∧ ((0:ℚ) < 1) ∧ ((1:ℕ) ≤ 256) ∧
    ∃ tc, truncate_colormap registryGray (.byObject cmGray) 0 1 256
        = .ok tc ∧
      tc.name = "truncated(" ++ cmGray.name ++ "," ++ fmt2 0 ++ ","
                  ++ fmt2 1 ++ ")" ∧
      tc.colors.length = 256 := by
  refine ⟨by decide, by decide, by decide, by decide, ?_⟩
  obtain ⟨tc, h1, h2, h3, -, -, -⟩ :=
    c6_truncate_sampling_and_name registryGray cmGray 0 1 256 le_rfl
      (by decide) le_rfl (by decide)
  exact ⟨tc, h1, h2, h3⟩

/-! Helper lemmas about `setdefault` and the renderer. -/

theorem setdefault_lookup_of_mem (kw : KwArgs) (k0 v0 k v : String)
    (hv : List.lookup k kw = some v) :
    List.lookup k (setdefault kw k0 v0) = some v := by
  unfold setdefault
  split_ifs with h
  · exact hv
  · rw [List.lookup_append, hv]
    rfl

theorem setdefault_lookup_default (kw : KwArgs) (k0 v0 : String)
    (h : List.lookup k0 kw = none) :
    List.lookup k0 (setdefault kw k0 v0) = some v0 := by
  unfold setdefault
  rw [if_neg (by simp [h]), List.lookup_append, h]
  simp [List.lookup]

theorem setdefault_lookup_ne (kw : KwArgs) (k0 v0 k : String)
    (hne : k ≠ k0) :
    List.lookup k (setdefault kw k0 v0) = List.lookup k kw := by
  unfold setdefault
  split_ifs with h
  · rfl
  · rw [List.lookup_append, show List.lookup k [(k0, v0)] = none by
      simp [List.lookup, beq_eq_false_iff_ne.mpr hne]]
    cases List.lookup k kw <;> rfl

theorem plot_ok_call_kwargs (kde : Kde) (registry : Registry)
    (x y : List PFloat) (bw : Option PFloat) (cmap : CmapArg)
    (minval maxval : ℚ) (n : ℕ) (ax : Option Axes) (gca : Axes)
    (kw : KwArgs) (call : ScatterCall)
    (h : (plot_density_scatter kde registry x y bw cmap minval maxval n
            ax gca kw).result = .ok call) :
    call.kwargs = setdefault kw "edgecolor" "None" := by
  rcases hcd : calculate_density kde x y bw with ⟨ws, res⟩
  cases res with
  | error e => simp [plot_density_scatter, hcd] at h
  | ok r =>
      cases htc : truncate_colormap registry cmap minval maxval n with
      | error e => simp [plot_density_scatter, hcd, htc] at h
      | ok tc =>
          cases ax with
          | some a =>
              simp [plot_density_scatter, hcd, htc] at h
              rw [← h]
          | none =>
              simp [plot_density_scatter, hcd, htc] at h
              rw [← h]

/-- C7: the renderer invokes the density estimator before the truncator,
propagates the estimator's warnings, propagates a failure of either
sub-call unchanged (an estimator failure wins regardless of the colormap
arguments), and on any failure adds no scatter layer to any surface. -/
theorem c7_order_propagation_untouched (kde : Kde) (registry : Registry)
    (x y : List PFloat) (bw : Option PFloat) (cmap : CmapArg)
    (minval maxval : ℚ) (n : ℕ) (ax : Option Axes) (gca : Axes)
    (kw : KwArgs) :
    (plot_density_scatter kde registry x y bw cmap minval maxval n
        ax gca kw).warnings = (calculate_density kde x y bw).1 ∧
    (∀ e, (calculate_density kde x y bw).2 = .error e →
      plot_density_scatter kde registry x y bw cmap minval maxval n ax gca kw
        = { warnings := (calculate_density kde x y bw).1,
            result := .error (.inl e), ax_out := ax, gca_out := gca }) ∧
    (∀ r e', (calculate_density kde x y bw).2 = .ok r →
      truncate_colormap registry cmap minval maxval n = .error e' →
      plot_density_scatter kde registry x y bw cmap minval maxval n ax gca kw
        = { warnings := (calculate_density kde x y bw).1,
            result := .error (.inr e'), ax_out := ax, gca_out := gca }) := by
  rcases hcd : calculate_density kde x y bw with ⟨ws, res⟩
  cases res with
  | error e0 =>
      refine ⟨by simp [plot_density_scatter, hcd], ?_, ?_⟩
      · intro e he
        have he' : e0 = e := by simpa using he
        subst he'
        simp [plot_density_scatter, hcd]
      · intro r e' hok htc
        simp at hok
  | ok r0 =>
      refine ⟨?_, ?_, ?_⟩
      · cases htc : truncate_colormap registry cmap minval maxval n with
        | error e => simp [plot_density_scatter, hcd, htc]
        | ok tc => cases ax <;> simp [plot_density_scatter, hcd, htc]
      · intro e he
        simp at he
      · intro r e' hok htc
        simp [plot_density_scatter, hcd, htc]

/-- Closed instance of C7 on a length-mismatched input: the validation error
propagates on the estimator side and no layer is added. -/
theorem c7_witness :
    (calculate_density kdeZero [PFloat.finite 0] ([] : List PFloat) none).2
      = .error (.validation (.lengthMismatch 1 0)) ∧
    plot_density_scatter kdeZero registryGray [PFloat.finite 0] [] none
        (.byObject cmGray) 0 1 1 none { layers := [] } []
      = { warnings := [],
          result := .error (.inl (.validation (.lengthMismatch 1 0))),
          ax_out := none, gca_out := { layers := [] } } :=
  ⟨rfl,
   (c7_order_propagation_untouched kdeZero registryGray [PFloat.finite 0] []
      none (.byObject cmGray) 0 1 1 none { layers := [] } []).2.1
     (.validation (.lengthMismatch 1 0)) rfl⟩

/-- C8: every rendering option the caller passes is forwarded verbatim to
the scatter primitive, and the edge-color option is filled in as `'None'`
exactly when the caller did not specify one. -/
theorem c8_kwargs_forwarding (kde : Kde) (registry : Registry)
    (x y : List PFloat) (bw : Option PFloat) (cmap : CmapArg)
    (minval maxval : ℚ) (n : ℕ) (ax : Option Axes) (gca : Axes)
    (kw : KwArgs) (call : ScatterCall)
    (h : (plot_density_scatter kde registry x y bw cmap minval maxval n
            ax gca kw).result = .ok call) :
    (∀ k v, List.lookup k kw = some v →
      List.lookup k call.kwargs = some v) ∧
    (List.lookup "edgecolor" kw = none →
      List.lookup "edgecolor" call.kwargs = some "None") ∧
    (∀ k, k ≠ "edgecolor" →
      List.lookup k call.kwargs = List.lookup k kw) := by
  have hkw := plot_ok_call_kwargs kde registry x y bw cmap minval maxval n
    ax gca kw call h
  rw [hkw]
  exact ⟨fun k v hv => setdefault_lookup_of_mem kw _ _ k v hv,
    fun hnone => setdefault_lookup_default kw _ _ hnone,
    fun k hne => setdefault_lookup_ne kw _ _ k hne⟩

/-- The scatter call produced on a concrete happy-path rendering. -/
def callW : ScatterCall :=
  { x := [.finite 0, .finite 1], y := [.finite 2, .finite 3], c := [0, 0],
    cmap := { name := "truncated(gray,0.00,1.00)",
              colors := [{ r := 0, g := 0, b := 0, a := 1 }] },
    kwargs := [("s", "10"), ("edgecolor", "None")] }

/-- Closed instance of C8 on a concrete happy-path rendering: the caller's
option survives verbatim and the edge-color default is added. -/
theorem c8_witness :
    (plot_density_scatter kdeZero registryGray xW yW none (.byObject cmGray)
        0 1 1 none { layers := [] } [("s", "10")]).result = .ok callW ∧
    List.lookup "s" callW.kwargs = some "10" ∧
    List.lookup "edgecolor" callW.kwargs = some "None" :=
  ⟨rfl,
   (c8_kwargs_forwarding kdeZero registryGray xW yW none (.byObject cmGray)
      0 1 1 none { layers := [] } [("s", "10")] callW rfl).1 "s" "10" rfl,
   (c8_kwargs_forwarding kdeZero registryGray xW yW none (.byObject cmGray)
      0 1 1 none { layers := [] } [("s", "10")] callW rfl).2.1 rfl⟩

end TopcatScatter
